import Mathlib

/-!
# Verification of the cpytoxlsx column-formatting engine

Shallow embedding of the metadata-driven column-formatting engine of
`cpytoxlsx3.py` (Python 3 / XlsxWriter variant) and `cpytoxlsf.py`
(iSeriesPython 2 / xlwt variant): digit analysis, pixel-to-column-width
conversion, edit-code number formats, disguised date/time classification,
heading resolution, break-field resolution, per-cell rendering dispatch,
running column-width accumulation, and break-row insertion.

Python floats and Decimals are modelled as exact rationals; Python `int()`
truncation is modelled with `Rat.floor`, which coincides with it on the
non-negative values the programs apply it to.
-/

namespace Cpytoxlsx

/-! ## ASCII string helpers (Python `str.lower`, `str.upper`, `str.strip`) -/

/-- ASCII lower-casing of one character, as Python `str.lower` does for the
ASCII inputs these programs handle. -/
def lowerChar (c : Char) : Char :=
  if 'A' ≤ c ∧ c ≤ 'Z' then Char.ofNat (c.toNat + 32) else c

/-- ASCII upper-casing of one character, as Python `str.upper` does for the
ASCII inputs these programs handle. -/
def upperChar (c : Char) : Char :=
  if 'a' ≤ c ∧ c ≤ 'z' then Char.ofNat (c.toNat - 32) else c

/-- Python `str.lower` on ASCII text. -/
def strLower (s : String) : String := String.mk (s.data.map lowerChar)

/-- Python `str.upper` on ASCII text. -/
def strUpper (s : String) : String := String.mk (s.data.map upperChar)

/-- The characters Python `str.strip` removes (the `string.whitespace` set). -/
def isStripChar (c : Char) : Bool :=
  c = ' ' || c = '\t' || c = '\n' || c = '\r' || c = '\x0b' || c = '\x0c'

/-- Python `str.strip` on a character list. -/
def stripList (cs : List Char) : List Char :=
  ((cs.dropWhile isStripChar).reverse.dropWhile isStripChar).reverse

/-- Python `str.strip`. -/
def strip (s : String) : String := String.mk (stripList s.data)

/-- Split a character list at every occurrence of a separator character. -/
def splitCharAux (sep : Char) : List Char → List Char → List (List Char)
  | [], acc => [acc.reverse]
  | c :: rest, acc =>
      if c = sep then acc.reverse :: splitCharAux sep rest []
      else splitCharAux sep rest (c :: acc)

/-- Split a string on `';'`, recovering the three components of an Excel
number-format pattern `positive;negative;zero`. -/
def splitSemis (s : String) : List String :=
  (splitCharAux ';' s.data []).map String.mk

/-- Python `int()` on a rational: truncation toward zero, which equals the
floor on the non-negative values these programs apply it to. -/
def pyInt (q : ℚ) : ℤ := Rat.floor q

/-! ## Digit analysis (`integer_digits` / `number_analysis`)

`cpytoxlsx3.integer_digits` counts base-10 digits by repeated floor
division by 10, with `0` counted as one digit.  The loop is embedded with
an explicit fuel argument equal to the starting value, which dominates the
number of iterations, so the definition is structural and executable. -/

/-- The `while n: digits += 1; n //= 10` loop of `integer_digits`. -/
def digitsLoop : Nat → Nat → Nat
  | 0, _ => 0
  | fuel + 1, n => if n = 0 then 0 else digitsLoop fuel (n / 10) + 1

/-- `integer_digits(n)`: the number of digits in a positive integer
(`cpytoxlsx3.py` lines 203-211; identical to `cpytoxlsf._integer_digits`). -/
def integer_digits (n : Nat) : Nat :=
  if n = 0 then 1 else digitsLoop n n

/-- `cpytoxlsx3.number_analysis(n, dp)` (lines 213-224): a 4-tuple of
(digits, thousands, points, signs).  Note that `digits` is
`idigits + points + dp`: the decimal point is counted into `digits` as
well as being reported separately in `points`. -/
def number_analysis (n : ℚ) (dp : Nat) : Nat × Nat × Nat × Nat :=
  let signs : Nat := if n < 0 then 1 else 0
  let m : ℚ := if n < 0 then -n else n
  let points : Nat := if 0 < dp then 1 else 0
  let idigits : Nat := integer_digits (pyInt m).toNat
  (idigits + points + dp, (idigits - 1) / 3, points, signs)

namespace cpytoxlsf

/-- A Python number as `cpytoxlsf.number_analysis` distinguishes them:
an `int` (or `long`) or a `float`. -/
inductive PyNum where
  | int : ℤ → PyNum
  | float : ℚ → PyNum
deriving DecidableEq

/-- `n < 0` on a `PyNum`. -/
def PyNum.isNeg : PyNum → Bool
  | .int z => z < 0
  | .float q => q < 0

/-- `n = -n` on a `PyNum`. -/
def PyNum.neg : PyNum → PyNum
  | .int z => .int (-z)
  | .float q => .float (-q)

/-- `cpytoxlsf.number_analysis(n, dp)` (lines 164-180): unlike the
`cpytoxlsx3` version, `digits` is `idigits + dp` with no extra unit for
the decimal point, and a float's integer part is counted after adding 1
to `int(n)`. -/
def number_analysis (n : PyNum) (dp : Nat) : Nat × Nat × Nat × Nat :=
  let signs : Nat := if n.isNeg then 1 else 0
  let m : PyNum := if n.isNeg then n.neg else n
  let points : Nat := if 0 < dp then 1 else 0
  let idigits : Nat :=
    match m with
    | .float q => integer_digits (pyInt q + 1).toNat
    | .int z => integer_digits z.toNat
  (idigits + dp, (idigits - 1) / 3, points, signs)

end cpytoxlsf

/-! ## Width model of `cpytoxlsx3` (Calibri 11, pixels)

`char_groups` maps groups of characters to empirically measured pixel
widths such as `203.01 / 28`; the derived `pixel_widths` dictionary is
looked up with a fallback to the width of the digit `'0'`.  The groups
are disjoint, so the lookup-with-fallback is embedded as one total
function per weight, with exact rationals for the float constants. -/

/-- `pixel_widths[char]`, with the dictionary-miss fallback to
`pixel_widths['0']` used by `textwidth` (regular weight). -/
def pixel_width (c : Char) : ℚ :=
  if "0123456789agkvxyEFSTYZ#$*+<=>?^_|~".data.contains c then 20301 / 2800
  else if "bdehnopquBCKPRX".data.contains c then 23201 / 2800
  else if "cszL\"/\\".data.contains c then 17401 / 2800
  else if "frtJ!()-[]{}".data.contains c then 14501 / 2800
  else if "ijlI,.:;`".data.contains c then 11601 / 2800
  else if "mM".data.contains c then 34801 / 2800
  else if "w%".data.contains c then 31901 / 2800
  else if "ADGHUV".data.contains c then 26101 / 2800
  else if "NOQ&".data.contains c then 29001 / 2800
  else if "W@".data.contains c then 37701 / 2800
  else if "' ".data.contains c then 8701 / 2800
  else 20301 / 2800

/-- `bold_pixel_widths[char]`, with the same fallback to the digit width. -/
def bold_pixel_width (c : Char) : ℚ :=
  if "0123456789agkvxyEFSTZ\"#$*+<=>?^_|~".data.contains c then 20301 / 2800
  else if "bdehnopquBCKPRXY".data.contains c then 23201 / 2800
  else if "cszL/\\".data.contains c then 17401 / 2800
  else if "frtJ!()-[]`{}".data.contains c then 14501 / 2800
  else if "ijlI',.:;".data.contains c then 11601 / 2800
  else if "m".data.contains c then 34801 / 2800
  else if "w%&".data.contains c then 31901 / 2800
  else if "ADHV".data.contains c then 26101 / 2800
  else if "GNOQU".data.contains c then 29001 / 2800
  else if "M@".data.contains c then 37701 / 2800
  else if "W".data.contains c then 40601 / 2800
  else if " ".data.contains c then 8701 / 2800
  else 20301 / 2800

/-- `cpytoxlsx3.colwidth_from_pixels(pixels)` (lines 226-236): convert
pixels to the user-facing units presented by Excel, with the two
one-pixel fudge-factor subtractions past 34 and 62 pixels and the
two-regime linear mapping. -/
def colwidth_from_pixels (pixels : ℚ) : ℚ :=
  let pixels := if 34 < pixels then pixels - 1 else pixels
  let pixels := if 62 < pixels then pixels - 1 else pixels
  if pixels < 12 then pixels / 12 else (pixels - 5) / 7

/-- `cpytoxlsx3.textwidth(data, bold)` (lines 238-247): 7 base pixels plus
per-character pixel widths, converted to column-width units. -/
def textwidth (data : String) (bold : Bool := false) : ℚ :=
  colwidth_from_pixels
    (data.data.foldl
      (fun pixels c => pixels + (if bold then bold_pixel_width c else pixel_width c)) 7)

/-- `cpytoxlsx3.numwidth(data, dp, use_commas)` (lines 249-262): width of a
number from its digit analysis (regular weight: digits do not change
width when bold in Calibri 11). -/
def numwidth (data : ℚ) (dp : Nat) (use_commas : Bool := false) : ℚ :=
  let a := number_analysis data dp
  let pixels : ℚ := 7 + (a.1 : ℚ) * pixel_width '0'
  let pixels := if use_commas then pixels + (a.2.1 : ℚ) * pixel_width ',' else pixels
  let pixels := pixels + (a.2.2.1 : ℚ) * pixel_width '.'
  let pixels := pixels + (a.2.2.2 : ℚ) * pixel_width '-'
  colwidth_from_pixels pixels

/-- `cpytoxlsx3.datewidth()` (lines 264-268): room for an 8-digit date with
two separators. -/
def datewidth : ℚ :=
  colwidth_from_pixels (7 + 8 * pixel_width '0' + 2 * pixel_width '/')

/-- `cpytoxlsx3.timewidth(bold)` (lines 270-278): room for an
`HH:MM:SS AM/PM` time. -/
def timewidth (bold : Bool := false) : ℚ :=
  let cw := fun c => if bold then bold_pixel_width c else pixel_width c
  colwidth_from_pixels
    (7 + 6 * cw '0' + 2 * cw ':' + cw ' ' + (max (cw 'A') (cw 'P') + cw 'M'))

/-- `cpytoxlsx3.timestampwidth(bold)` (lines 280-288): room for an
`MM/DD/YY HH:MM:SS AM/PM` timestamp. -/
def timestampwidth (bold : Bool := false) : ℚ :=
  let cw := fun c => if bold then bold_pixel_width c else pixel_width c
  colwidth_from_pixels
    (7 + 12 * cw '0' + (2 * cw '/' + 2 * cw ':') + 2 * cw ' '
      + (max (cw 'A') (cw 'P') + cw 'M'))

/-! ## Width model of `cpytoxlsf` (Arial 10, BIFF font units) -/

namespace cpytoxlsf

/-- The `charwidths` table of `cpytoxlsf.py` (lines 78-143): only the
characters whose Arial 10 width differs from `'0'` are listed; `fitwidth`
falls back to `charwidths['0']` for everything else. -/
def charwidth (c : Char) : Option ℚ :=
  match c with
  | '0' => some (262637 / 1000)
  | 'f' => some (146015 / 1000)
  | 'i' => some (117096 / 1000)
  | 'j' => some (88178 / 1000)
  | 'k' => some (233244 / 1000)
  | 'l' => some (88178 / 1000)
  | 'm' => some (379259 / 1000)
  | 'r' => some (175407 / 1000)
  | 's' => some (233244 / 1000)
  | 't' => some (117096 / 1000)
  | 'v' => some (203852 / 1000)
  | 'w' => some (321422 / 1000)
  | 'x' => some (203852 / 1000)
  | 'z' => some (233244 / 1000)
  | 'A' => some (321422 / 1000)
  | 'B' => some (321422 / 1000)
  | 'C' => some (350341 / 1000)
  | 'D' => some (350341 / 1000)
  | 'E' => some (321422 / 1000)
  | 'F' => some (291556 / 1000)
  | 'G' => some (350341 / 1000)
  | 'H' => some (321422 / 1000)
  | 'I' => some (146015 / 1000)
  | 'K' => some (321422 / 1000)
  | 'M' => some (379259 / 1000)
  | 'N' => some (321422 / 1000)
  | 'O' => some (350341 / 1000)
  | 'P' => some (321422 / 1000)
  | 'Q' => some (350341 / 1000)
  | 'R' => some (321422 / 1000)
  | 'S' => some (321422 / 1000)
  | 'U' => some (321422 / 1000)
  | 'V' => some (321422 / 1000)
  | 'W' => some (496356 / 1000)
  | 'X' => some (321422 / 1000)
  | 'Y' => some (321422 / 1000)
  | ' ' => some (146015 / 1000)
  | '!' => some (146015 / 1000)
  | '"' => some (175407 / 1000)
  | '%' => some (438044 / 1000)
  | '&' => some (321422 / 1000)
  | '\'' => some (88178 / 1000)
  | '(' => some (175407 / 1000)
  | ')' => some (175407 / 1000)
  | '*' => some (203852 / 1000)
  | '+' => some (291556 / 1000)
  | ',' => some (146015 / 1000)
  | '-' => some (175407 / 1000)
  | '.' => some (146015 / 1000)
  | '/' => some (146015 / 1000)
  | ':' => some (146015 / 1000)
  | ';' => some (146015 / 1000)
  | '<' => some (291556 / 1000)
  | '=' => some (291556 / 1000)
  | '>' => some (291556 / 1000)
  | '@' => some (496356 / 1000)
  | '[' => some (146015 / 1000)
  | '\\' => some (146015 / 1000)
  | ']' => some (146015 / 1000)
  | '^' => some (203852 / 1000)
  | '`' => some (175407 / 1000)
  | '{' => some (175407 / 1000)
  | '|' => some (146015 / 1000)
  | '}' => some (175407 / 1000)
  | '~' => some (291556 / 1000)
  | _ => none

/-- `cpytoxlsf.fitwidth(data, bold)` (lines 190-200): 220 base units plus
per-character widths (falling back to the `'0'` width), a 1.1 factor when
bold, truncated by `int` and clamped to the documented minimum of 700
BIFF units ("Don't go smaller than a reported width of 2"). -/
def fitwidth (data : String) (bold : Bool := false) : ℤ :=
  let units : ℚ :=
    data.data.foldl (fun u c => u + ((charwidth c).getD ((charwidth '0').getD 0))) 220
  let units := if bold then units * (11 / 10) else units
  pyInt (max units 700)

end cpytoxlsf

/-! ## Number-format synthesizer (`default_numformat` / `editcode`)

These two functions are textually identical in `cpytoxlsx3.py` (lines
294-319) and `cpytoxlsf.py` (lines 223-249), up to the wrapping of the
resulting `num_format` string into a style object; the embedding returns
the format string itself. -/

/-- `default_numformat(dp, use_commas)`: the bare fixed-point pattern. -/
def default_numformat (dp : Nat) (use_commas : Bool := false) : String :=
  let integers := if use_commas then "#,##0" else "0"
  let decimals := if 0 < dp then "." ++ String.mk (List.replicate dp '0') else ""
  integers ++ decimals

/-- `editcode(code, dp)`: the `positive;negative;zero` pattern derived from
a single-character edit code, falling back to `default_numformat` for
unrecognized codes. -/
def editcode (code : String) (dp : Nat) : String :=
  let code := strLower code
  if code.data.length ≠ 1 ∨ ¬ "1234nopq".data.contains (code.data.headD ' ') then
    default_numformat dp
  else
    let c := code.data.headD ' '
    let sign := if "nopq".data.contains c then "-" else ""
    let integers := if "12no".data.contains c then "#,###" else "#"
    let decimals := if 0 < dp then "." ++ String.mk (List.replicate dp '0') else ""
    let positive := integers ++ decimals
    let negative := sign ++ positive
    let zero := if "13np".data.contains c
      then String.mk positive.data.dropLast ++ "0" else ""
    positive ++ ";" ++ negative ++ ";" ++ zero

/-! ## Field classifier (`is_numeric_date` / `is_numeric_time`)

Identical in both programs (`cpytoxlsx3.py` lines 321-325, `cpytoxlsf.py`
lines 251-255).  `fieldsize` is either a `(digits, decimal_places)` pair
for numeric fields or the bare byte length for character fields, so the
tuple comparison can only succeed for numeric fields. -/

/-- The `fieldsize` value built by the DDS loop: `(digits, decimal_places)`
for a numeric field, the byte length for a character field. -/
inductive FieldSize where
  | numeric : Nat → Nat → FieldSize
  | char : Nat → FieldSize
deriving DecidableEq

/-- `is_numeric_date(size, editword)`: an 8-digit, 0-decimal field whose
edit word is one of the two blank-padded date templates. -/
def is_numeric_date (size : FieldSize) (editword : String) : Bool :=
  size = FieldSize.numeric 8 0 ∧
    (editword = "'    -  -  '" ∨ editword = "'    /  /  '")

/-- `is_numeric_time(size, editword)`: a 6-digit, 0-decimal field whose
edit word is one of the two time templates. -/
def is_numeric_time (size : FieldSize) (editword : String) : Bool :=
  size = FieldSize.numeric 6 0 ∧
    (editword = "'  .  .  '" ∨ editword = "'  :  :  '")

/-- The spec's three-way classification, packaging the two predicates.
They are mutually exclusive because their shape requirements differ. -/
inductive TemporalClass where
  | notTemporal
  | date
  | time
deriving DecidableEq

/-- `classify_numeric_temporal(shape, edit_word)`: date when
`is_numeric_date`, time when `is_numeric_time`, neither otherwise. -/
def classify_numeric_temporal (size : FieldSize) (editword : String) : TemporalClass :=
  if is_numeric_date size editword then .date
  else if is_numeric_time size editword then .time
  else .notTemporal

/-! ## Heading resolution

`cpytoxlsx3.sheetinfo` (lines 380-388) joins the three `COLHDG` lines with
single spaces and strips; a heading of `*SKIP` drops the field, `*BLANK`
or `*BLANKS` forces an empty heading, and an all-blank heading falls into
`elif not heading: heading = ''` — the empty string, not the field name.
`cpytoxlsf` (lines 307-317) instead replaces an all-blank heading by the
field name.  The result is `none` when the field is skipped. -/

/-- `' '.join(colhdg).strip()` on the three raw heading lines. -/
def joined_heading (h1 h2 h3 : String) : String :=
  strip (h1 ++ " " ++ h2 ++ " " ++ h3)

/-- Heading resolution of `cpytoxlsx3.sheetinfo`: `none` means the field is
skipped (`continue`), otherwise the heading stored for the field. -/
def sheetinfo_heading (fieldname h1 h2 h3 : String) : Option String :=
  let heading := joined_heading h1 h2 h3
  if strUpper heading = "*SKIP" then none
  else if strUpper heading = "*BLANK" ∨ strUpper heading = "*BLANKS" then some ""
  else if heading = "" then some ""
  else some heading

namespace cpytoxlsf

/-- Heading resolution of the `cpytoxlsf` DDS loop: an all-blank heading
becomes the field name; `*BLANK`/`*BLANKS` become empty; `*SKIP` skips. -/
def heading_text (fieldname h1 h2 h3 : String) : Option String :=
  let text := joined_heading h1 h2 h3
  if text = "" then some fieldname
  else if strUpper text = "*BLANK" ∨ strUpper text = "*BLANKS" then some ""
  else if strUpper text = "*SKIP" then none
  else some text

end cpytoxlsf

/-! ## Break-field resolution

Both programs run, per DDS record, the same resolution step guarded by
`breakfield is None`: search the record text for `break on (\S+)`
(case-insensitive), upper-case the captured token, and validate it
against a list of known names, downgrading to `''` (no break; distinct
from `None`, preventing recalculation) on any failure.  They differ in
the list: `cpytoxlsf` checks `infile.fieldList()`, the copied file's
field names, while `cpytoxlsx3` checks `all_fields = [t[0] for t in
cs.description]` — the column names of its own `SELECT` against the
DSPFFD output file. -/

/-- The whitespace class of the regex `\S` (complement). -/
def isRegexSpace (c : Char) : Bool :=
  c = ' ' || c = '\t' || c = '\n' || c = '\r' || c = '\x0b' || c = '\x0c'

/-- Does `break on ` (case-insensitively) followed by at least one
non-space character start here? -/
def startsBreakOn (s : List Char) : Bool :=
  ((s.take 9).map lowerChar == "break on ".data) &&
    (match s.drop 9 with
     | [] => false
     | c :: _ => !(isRegexSpace c))

/-- `re.search(r'break on (\S+)', text, re.IGNORECASE)`: the captured
token of the leftmost match, if any. -/
def searchBreakOn : List Char → Option (List Char)
  | [] => none
  | c :: rest =>
      if startsBreakOn (c :: rest) then
        some (((c :: rest).drop 9).takeWhile (fun ch => !(isRegexSpace ch)))
      else searchBreakOn rest

/-- One record's break-field resolution step.  `none` models Python's
`None` (not yet resolved); `some ""` models the resolved "no break field"
sentinel; `some name` a resolved break field. -/
def break_resolve_step (cur : Option String) (rcdtext : String)
    (known : List String) : Option String :=
  match cur with
  | some b => some b
  | none =>
      match searchBreakOn rcdtext.data with
      | some tok =>
          let b := strUpper (String.mk tok)
          if known.contains b then some b else some ""
      | none => some ""

/-- The column names of `select whflde, whftxt, whchd1, whchd2, whchd3,
whtext, whfldd, whfldp, whfldb, whecde, whewrd from qtemp.dspffdpf`: this
is what `cpytoxlsx3.sheetinfo` binds to `all_fields` from
`cs.description` and validates the break token against. -/
def dspffd_output_columns : List String :=
  ["WHFLDE", "WHFTXT", "WHCHD1", "WHCHD2", "WHCHD3", "WHTEXT",
   "WHFLDD", "WHFLDP", "WHFLDB", "WHECDE", "WHEWRD"]

/-- The break-field resolution step as `cpytoxlsx3.sheetinfo` performs it
(lines 369-375), with `all_fields` fixed to the DSPFFD query columns. -/
def sheetinfo_break_step (cur : Option String) (rcdtext : String) : Option String :=
  break_resolve_step cur rcdtext dspffd_output_columns

/-! ## Sheet Writer of `cpytoxlsx3.main` (lines 503-559)

A cell value as delivered by `fetch`: a right-trimmed string, an `int`
(zero-scale decimals are converted to `int`), a `Decimal` with fractional
digits, or a native `datetime.date` / `time` / `datetime`.  The per-field
formatting state is one record per field, combining the `SheetInfo`
dictionaries keyed by field name (`name in dict` becomes an `Option` or
`Bool` field). -/

/-- A fetched cell value. -/
inductive Value where
  | int : ℤ → Value
  | dec : ℚ → Value
  | str : String → Value
  | pydate : ℕ → ℕ → ℕ → Value
  | pytime : ℕ → ℕ → ℕ → Value
  | pydatetime : ℕ → ℕ → ℕ → ℕ → ℕ → ℕ → Value
deriving DecidableEq

/-- `isinstance(value, datetime)`. -/
def Value.isDatetime : Value → Bool
  | .pydatetime .. => true
  | _ => false

/-- `isinstance(value, date)` after the `datetime` check has failed. -/
def Value.isDate : Value → Bool
  | .pydate .. => true
  | _ => false

/-- `isinstance(value, time)`. -/
def Value.isTime : Value → Bool
  | .pytime .. => true
  | _ => false

/-- `isinstance(value, str)`. -/
def Value.isStr : Value → Bool
  | .str _ => true
  | _ => false

/-- Python `value == 0` on a fetched value (strings never equal `0`). -/
def Value.eqZero : Value → Bool
  | .int n => n = 0
  | .dec q => q = 0
  | _ => false

/-- A value already carrying a native date, time, or timestamp type. -/
def Value.isNativeTemporal (v : Value) : Bool :=
  v.isDatetime || v.isDate || v.isTime

/-- The numeric content of a cell value, as `numwidth`'s `number_analysis`
receives it.  Strings and native temporals never reach `numwidth`: a
column has `decplaces` recorded exactly when it is numeric, and its data
values are then ints or decimals. -/
def Value.toRat : Value → ℚ
  | .int n => n
  | .dec q => q
  | _ => 0

/-- `str(value)` for the values that reach `textwidth`: columns without
`decplaces` are character fields, so this is the string itself; the `int`
case matches Python's decimal rendering. -/
def Value.toStr : Value → String
  | .str s => s
  | .int n => toString n
  | _ => ""

/-- The per-field formatting state accumulated by `sheetinfo` for one
field, as `main` consumes it. -/
structure FieldFmt where
  name : String
  heading : String
  /-- `fmt.numformats[name]` if present (`name in fmt.numformats`). -/
  numformat : Option String
  /-- `fmt.commaflags[name]` (set exactly when a number format is). -/
  commaflag : Bool
  /-- `fmt.dateflags[name]`. -/
  dateflag : Bool
  /-- `fmt.timeflags[name]`. -/
  timeflag : Bool
  /-- `fmt.decplaces[name]` if present. -/
  decplaces : Option Nat
  /-- `fmt.colwidths[name]` if present (explicit `width=` annotation). -/
  colwidth : Option Nat
  /-- `name in fmt.wrapped`. -/
  wrapped : Bool
  /-- `name in fmt.blankzeros`. -/
  blankzero : Bool
deriving DecidableEq

/-- The ten mutually exclusive cell-rendering branches of the
`if/elif` chain in `main` (lines 516-546). -/
inductive RenderBranch where
  | nativeTimestamp
  | nativeDate
  | nativeTime
  | numericDate
  | numericTime
  | blankZero
  | numberFormat
  | wrapText
  | textStyle
  | plain
deriving DecidableEq

/-- The rendering branch `main` selects for one cell: the first test of
the `if/elif` chain that succeeds. -/
def selectBranch (f : FieldFmt) (v : Value) : RenderBranch :=
  if v.isDatetime then .nativeTimestamp
  else if v.isDate then .nativeDate
  else if v.isTime then .nativeTime
  else if f.dateflag then .numericDate
  else if f.timeflag then .numericTime
  else if v.eqZero && f.blankzero then .blankZero
  else if f.numformat.isSome then .numberFormat
  else if f.wrapped then .wrapText
  else if v.isStr then .textStyle
  else .plain

/-- The per-cell update of the running column-width accumulator
`maxwidths[cx]` (lines 547-559).  Date-, time-, and timestamp-shaped
cells overwrite the accumulator with the fixed constant before the
`max` with the numeric or text estimate is taken; columns with an
explicit width are never updated. -/
def width_update (f : FieldFmt) (prev : ℚ) (v : Value) : ℚ :=
  if f.colwidth.isSome then prev
  else
    let w :=
      if v.isDate || f.dateflag then datewidth
      else if v.isTime || f.timeflag then timewidth
      else if v.isDatetime then timestampwidth
      else prev
    match f.decplaces with
    | some dp => max w (numwidth v.toRat dp f.commaflag)
    | none => max w (textwidth v.toStr)

/-- The header row seeds the accumulator with the bold width of the
heading for columns without an explicit width (lines 488-492). -/
def header_seed (f : FieldFmt) : ℚ :=
  if f.colwidth.isSome then 0 else textwidth f.heading true

/-! ## Break-row insertion (lines 503-508)

Per data row, `rx` advances by one, and by one more when a break field is
configured (`bx is not None`), a previous break value has been observed,
and the current break value differs from it.  The state is the pair of
the current row index and the last observed break value. -/

/-- One data row's advance of `(rx, breakvalue)` when a break field is
configured. -/
def break_row_step {α : Type} [DecidableEq α] (st : ℕ × Option α) (v : α) :
    ℕ × Option α :=
  let rx := st.1 + 1
  match st.2 with
  | some prev => (if v ≠ prev then rx + 1 else rx, some v)
  | none => (rx, some v)

/-- Run the row loop (break field configured) over the column's break
values, starting below the header at row `rx0` with no previous value. -/
def break_rows_run {α : Type} [DecidableEq α] (rx0 : ℕ) (vs : List α) :
    ℕ × Option α :=
  vs.foldl break_row_step (rx0, none)

/-- The number of adjacent positions at which the break value changes:
one per boundary where a row's value differs from the previous row's. -/
def adjacent_changes {α : Type} [DecidableEq α] : List α → ℕ
  | [] => 0
  | [_] => 0
  | a :: b :: t => (if b ≠ a then 1 else 0) + adjacent_changes (b :: t)

/-! ## Helper lemmas -/

section Theorems

attribute [local semireducible] Rat.inv Rat.mul Rat.add Rat.sub

/-- `pyInt` agrees with the mathematical floor. -/
theorem pyInt_eq_floor (q : ℚ) : pyInt q = ⌊q⌋ := by
  rw [pyInt, Rat.floor_def' q, Rat.floor_def]

/-- `pyInt` of a natural number is itself. -/
theorem pyInt_natCast (n : ℕ) : pyInt (n : ℚ) = n := by
  rw [pyInt_eq_floor]; exact_mod_cast Int.floor_natCast n

/-! ## C1: heading resolution -/

/-- C1: raw heading lines that join and strip to the empty string are
claimed to yield the field name as the heading.  `cpytoxlsf` does so, but
`cpytoxlsx3.sheetinfo` stores the empty string (its `elif not heading:`
branch assigns `''`, contradicting the module docstring "For any field
without a heading, the field name is used instead").  The `*BLANK` /
`*BLANKS` and `*SKIP` parts of the claim hold in both programs. -/
theorem heading_allblank_bug :
    sheetinfo_heading "ORDERNO" "" "" "" = some "" ∧
    cpytoxlsf.heading_text "ORDERNO" "" "" "" = some "ORDERNO" ∧
    sheetinfo_heading "ORDERNO" "*Blank" "" "" = some "" ∧
    sheetinfo_heading "ORDERNO" "*BLANKS" "" "" = some "" ∧
    sheetinfo_heading "ORDERNO" "*skip" "" "" = none ∧
    cpytoxlsf.heading_text "ORDERNO" "*BLANK" "" "" = some "" ∧
    cpytoxlsf.heading_text "ORDERNO" "*SKIP" "" "" = none := by decide

/-! ## C2: number_analysis digit count -/

/-- C2, counterexample: for `n = 5`, `decimal_places = 2`,
`cpytoxlsx3.number_analysis` reports `digit_count = 4`, not
`integer_digit_count(5) + 2 = 3`: the decimal point is counted into
`digits` as well as into `points`. -/
theorem number_analysis_point_cex :
    (number_analysis 5 2).1 ≠ integer_digits 5 + 2 := by decide

/-- C2, amended: for every non-negative integer `n` and
`decimal_places ≥ 0`, the `cpytoxlsx3` variant returns
`digit_count = integer_digit_count(n) + decimal_places` plus one more
when `decimal_places > 0` (the decimal point), while the `cpytoxlsf`
variant returns exactly `integer_digit_count(n) + decimal_places`; both
return `thousands_groups = (integer_digit_count(n) - 1) // 3`. -/
theorem number_analysis_digit_formula (n : ℕ) (dp : ℕ) :
    (number_analysis (n : ℚ) dp).1
        = integer_digits n + dp + (if 0 < dp then 1 else 0) ∧
    (number_analysis (n : ℚ) dp).2.1 = (integer_digits n - 1) / 3 ∧
    (cpytoxlsf.number_analysis (.int (n : ℤ)) dp).1 = integer_digits n + dp ∧
    (cpytoxlsf.number_analysis (.int (n : ℤ)) dp).2.1
        = (integer_digits n - 1) / 3 := by
  have hn : ¬ ((n : ℚ) < 0) := by
    simp [not_lt]
  have hz : ¬ ((n : ℤ) < 0) := by
    simp [not_lt]
  refine ⟨?_, ?_, ?_, ?_⟩ <;>
    simp [number_analysis, cpytoxlsf.number_analysis, cpytoxlsf.PyNum.isNeg,
      hn, hz, pyInt_natCast] <;>
    split_ifs <;> omega

/-! ## C3: editcode for code Q -/

/-- C3, counterexample: the zero sub-pattern of `editcode('Q', 0)` is not
the literal-zero branch (the positive pattern with its last digit
placeholder replaced by `'0'`); it is empty, because `'q'` is not among
the codes `'13np'` that receive the literal-zero substitution. -/
theorem editcode_Q_zero_cex :
    (splitSemis (editcode "Q" 0)).getD 2 "" ≠
      String.mk ((splitSemis (editcode "Q" 0)).getD 0 "").data.dropLast ++ "0" := by
  decide

/-- C3, amended: `editcode('Q', 0)` yields positive pattern `#`, negative
pattern `-#` (leading minus, as claimed), and an *empty* zero
sub-pattern; the literal-zero branch is reserved for codes 1, 3, N, P,
as `editcode('P', 0)` and `editcode('N', 0)` show. -/
theorem editcode_Q_pattern :
    splitSemis (editcode "Q" 0) = ["#", "-#", ""] ∧
    splitSemis (editcode "P" 0) = ["#", "-#", "0"] ∧
    splitSemis (editcode "N" 0) = ["#,###", "-#,###", "#,##0"] := by
  decide

/-! ## C5: break-field resolution -/

/-- C5: the break token is claimed to be validated against the copied
file's field names.  `cpytoxlsf` does exactly that, but
`cpytoxlsx3.sheetinfo` validates against `all_fields`, the column names
of its own DSPFFD metadata query, so a `break on ORDERNO` directive
resolves to `''` (no break) even when `ORDERNO` is a field of the file;
the once-only resolution (the `some`-state absorbs every later step)
holds in both. -/
theorem break_on_valid_field_lost :
    sheetinfo_break_step none "Sales orders - break on ORDERNO" = some "" ∧
    break_resolve_step none "Sales orders - break on ORDERNO"
      ["ORDERNO", "CUSTNO", "SHIPDT"] = some "ORDERNO" ∧
    sheetinfo_break_step (some "") "break on ORDERNO" = some "" ∧
    sheetinfo_break_step (some "ORDERNO") "break on CUSTNO" = some "ORDERNO" := by
  decide

/-! ## C9: disguised date/time classifier -/

/-- C9: the classifier returns `date` exactly for shape `(8, 0)` with one
of the two dash/slash blank-padded edit-word templates, `time` exactly
for shape `(6, 0)` with one of the two dot/colon templates, and neither
otherwise, as witnessed on the four concrete spec examples. -/
theorem classify_shape_template_iff :
    (∀ size ew, classify_numeric_temporal size ew = .date ↔
      (size = FieldSize.numeric 8 0 ∧
        (ew = "'    -  -  '" ∨ ew = "'    /  /  '"))) ∧
    (∀ size ew, classify_numeric_temporal size ew = .time ↔
      (size = FieldSize.numeric 6 0 ∧
        (ew = "'  .  .  '" ∨ ew = "'  :  :  '"))) ∧
    (∀ size ew, classify_numeric_temporal size ew = .notTemporal ↔
      (¬ (size = FieldSize.numeric 8 0 ∧
            (ew = "'    -  -  '" ∨ ew = "'    /  /  '")) ∧
       ¬ (size = FieldSize.numeric 6 0 ∧
            (ew = "'  .  .  '" ∨ ew = "'  :  :  '")))) ∧
    classify_numeric_temporal (.numeric 8 0) "'    -  -  '" = .date ∧
    classify_numeric_temporal (.numeric 8 0) "'xx-xx-xx'" = .notTemporal ∧
    classify_numeric_temporal (.numeric 6 0) "'  :  :  '" = .time ∧
    classify_numeric_temporal (.numeric 7 0) "'  :  :  '" = .notTemporal := by
  refine ⟨?_, ?_, ?_, by decide, by decide, by decide, by decide⟩ <;>
    · intro size ew
      simp only [classify_numeric_temporal, is_numeric_date, is_numeric_time]
      split_ifs with h1 h2 <;> simp_all

/-! ## C4: minimum width floor -/

/-- An if-then-else of non-negative rationals is non-negative. -/
theorem ite_nonneg (p : Prop) [Decidable p] (a b : ℚ) (ha : 0 ≤ a)
    (hb : 0 ≤ b) : 0 ≤ if p then a else b := by
  split <;> assumption

/-- Every Calibri 11 regular-weight character width is non-negative. -/
theorem pixel_width_nonneg (c : Char) : 0 ≤ pixel_width c := by
  unfold pixel_width
  repeat' apply ite_nonneg
  all_goals norm_num

/-- Every Calibri 11 bold character width is non-negative. -/
theorem bold_pixel_width_nonneg (c : Char) : 0 ≤ bold_pixel_width c := by
  unfold bold_pixel_width
  repeat' apply ite_nonneg
  all_goals norm_num

/-- Accumulating non-negative per-character widths never shrinks the
running pixel total. -/
theorem le_foldl_add (w : Char → ℚ) (hw : ∀ c, 0 ≤ w c) :
    ∀ (l : List Char) (a : ℚ), a ≤ l.foldl (fun px c => px + w c) a
  | [], _ => le_refl _
  | c :: t, a =>
      le_trans (by have := hw c; linarith) (le_foldl_add w hw t (a + w c))

/-- At least the 7 base padding pixels always reach the conversion, which
then cannot report less than `7/12` of a width unit. -/
theorem colwidth_from_pixels_ge (x : ℚ) (hx : 7 ≤ x) :
    7 / 12 ≤ colwidth_from_pixels x := by
  simp only [colwidth_from_pixels]
  split_ifs <;> linarith

/-- C4: for every string and either boldness flag, `cpytoxlsf.fitwidth`
never returns less than its documented minimum floor of 700 BIFF units
("Don't go smaller than a reported width of 2"); the `cpytoxlsx3`
`textwidth` has no documented clamp, but its 7 base padding pixels keep
it at or above `7/12` of a width unit. -/
theorem fitwidth_minimum_floor (s : String) (bold : Bool) :
    700 ≤ cpytoxlsf.fitwidth s bold ∧ 7 / 12 ≤ textwidth s bold := by
  constructor
  · unfold cpytoxlsf.fitwidth
    rw [pyInt_eq_floor]
    rw [Int.le_floor]
    exact le_trans (by norm_num) (le_max_right _ 700)
  · unfold textwidth
    refine colwidth_from_pixels_ge _ ?_
    refine le_foldl_add _ (fun c => ?_) s.data 7
    cases bold <;> simp [pixel_width_nonneg, bold_pixel_width_nonneg]

/-! ## C8: break-row insertion count -/

/-- Once a previous break value has been observed, the row counter
advances by the row count plus one per adjacent change. -/
theorem break_rows_go {α : Type} [DecidableEq α] :
    ∀ (vs : List α) (rx : ℕ) (prev : α),
      (vs.foldl break_row_step (rx, some prev)).1
        = rx + vs.length + adjacent_changes (prev :: vs) := by
  intro vs
  induction vs with
  | nil => intro rx prev; simp [adjacent_changes]
  | cons v t ih =>
      intro rx prev
      by_cases hv : v = prev <;>
        simp [break_row_step, hv, ih, adjacent_changes] <;> omega

/-- C8: with a break field configured, the writer adds one extra blank
row exactly at each boundary where the break value differs from the
previously observed one and never before the first row: the row index
advances by the number of rows plus the number of adjacent changes.  For
break values `[1, 1, 2, 2, 3]` exactly 2 extra rows appear. -/
theorem break_rows_extra_count :
    (∀ (α : Type) [DecidableEq α] (rx0 : ℕ) (vs : List α),
        (break_rows_run rx0 vs).1 = rx0 + vs.length + adjacent_changes vs) ∧
    adjacent_changes ([1, 1, 2, 2, 3] : List ℤ) = 2 ∧
    (break_rows_run 0 ([1, 1, 2, 2, 3] : List ℤ)).1 = 5 + 2 := by
  refine ⟨?_, by decide, by decide⟩
  intro α _ rx0 vs
  cases vs with
  | nil => simp [break_rows_run, adjacent_changes]
  | cons v t =>
      have h := break_rows_go t (rx0 + 1) v
      simp only [break_rows_run, List.foldl_cons, break_row_step] at h ⊢
      simp only [List.length_cons, adjacent_changes]
      omega

/-! ## C7: per-cell rendering branch precedence -/

/-- C7: exactly one rendering branch applies per cell, selected in the
fixed order native timestamp/date/time, numeric-date decode,
numeric-time decode, blank-on-zero, number format, wrap, text style,
plain: each of the later branches fires exactly when its own guard holds
and every earlier guard fails; in particular a date-flagged column never
reaches the number-format branch, whatever format was resolved. -/
theorem selectBranch_precedence (f : FieldFmt) (v : Value) :
    (f.dateflag = true → selectBranch f v ≠ .numberFormat) ∧
    (selectBranch f v = .numericDate ↔
      (v.isDatetime = false ∧ v.isDate = false ∧ v.isTime = false ∧
       f.dateflag = true)) ∧
    (selectBranch f v = .numberFormat ↔
      (v.isDatetime = false ∧ v.isDate = false ∧ v.isTime = false ∧
       f.dateflag = false ∧ f.timeflag = false ∧
       (v.eqZero && f.blankzero) = false ∧ f.numformat.isSome = true)) ∧
    (selectBranch f v = .wrapText ↔
      (v.isDatetime = false ∧ v.isDate = false ∧ v.isTime = false ∧
       f.dateflag = false ∧ f.timeflag = false ∧
       (v.eqZero && f.blankzero) = false ∧ f.numformat.isSome = false ∧
       f.wrapped = true)) ∧
    (selectBranch f v = .textStyle ↔
      (v.isDatetime = false ∧ v.isDate = false ∧ v.isTime = false ∧
       f.dateflag = false ∧ f.timeflag = false ∧
       (v.eqZero && f.blankzero) = false ∧ f.numformat.isSome = false ∧
       f.wrapped = false ∧ v.isStr = true)) ∧
    (selectBranch f v = .plain ↔
      (v.isDatetime = false ∧ v.isDate = false ∧ v.isTime = false ∧
       f.dateflag = false ∧ f.timeflag = false ∧
       (v.eqZero && f.blankzero) = false ∧ f.numformat.isSome = false ∧
       f.wrapped = false ∧ v.isStr = false)) := by
  unfold selectBranch
  split_ifs <;> simp_all

/-- A date-flagged numeric column that also carries a resolved number
format: the rendering dispatch never applies the format. -/
def dateWithFormatField : FieldFmt :=
  { name := "SHIPDT", heading := "Ship Date", numformat := some "0",
    commaflag := false, dateflag := true, timeflag := false,
    decplaces := some 0, colwidth := none, wrapped := false,
    blankzero := false }

/-- C7, witness: on the date-flagged column with a resolved number format
and the raw value `20240115`, the selected branch is the numeric-date
decode, not the number format. -/
theorem selectBranch_precedence_witness :
    selectBranch dateWithFormatField (Value.int 20240115) ≠ .numberFormat ∧
    selectBranch dateWithFormatField (Value.int 20240115) = .numericDate := by
  have h := selectBranch_precedence dateWithFormatField (Value.int 20240115)
  exact ⟨h.1 rfl, by decide⟩

/-! ## C6: running width accumulator -/

/-- A date-flagged column (8-digit numeric, matching edit word, no
explicit width) whose heading is wide: ten bold `'W'`s. -/
def wideHeadedDateField : FieldFmt :=
  { name := "SHIPDT", heading := "WWWWWWWWWW", numformat := some "0",
    commaflag := false, dateflag := true, timeflag := false,
    decplaces := some 0, colwidth := none, wrapped := false,
    blankzero := false }

/-- C6, counterexample: the accumulator is not monotone.  For the
date-flagged column above, the seed is the bold header width
(about 20.7 units), but the first data row *assigns*
`maxwidths[cx] = datewidth()` (about 10.1 units) before taking the
`max` with the numeric estimate, strictly shrinking the accumulator. -/
theorem width_update_decreases_cex :
    wideHeadedDateField.colwidth = none ∧
    header_seed wideHeadedDateField = textwidth "WWWWWWWWWW" true ∧
    width_update wideHeadedDateField (header_seed wideHeadedDateField)
        (Value.int 20240115)
      < header_seed wideHeadedDateField := by
  refine ⟨rfl, by decide, by decide⟩

/-- C6, amended: the accumulator is seeded from the bold heading width
and is monotonically non-decreasing across rows for every column that is
neither date- nor time-flagged and whose values are not native
date/time/timestamp objects; for date/time-shaped cells the code first
*overwrites* the accumulator with the fixed date, time, or timestamp
width constant, which can shrink it below the seeded header width. -/
theorem width_update_mono (f : FieldFmt) (prev : ℚ) (v : Value)
    (hd : f.dateflag = false) (ht : f.timeflag = false)
    (hv : v.isNativeTemporal = false) :
    prev ≤ width_update f prev v := by
  have h3 : v.isDatetime = false ∧ v.isDate = false ∧ v.isTime = false := by
    cases v <;> simp_all [Value.isNativeTemporal, Value.isDatetime,
      Value.isDate, Value.isTime]
  obtain ⟨h1, h2, h3⟩ := h3
  unfold width_update
  by_cases hcw : f.colwidth.isSome
  · simp [hcw]
  · simp only [hcw, if_false, Bool.false_eq_true, h1, h2, h3, hd, ht,
      Bool.or_self, if_neg, Bool.not_eq_true]
    cases hdp : f.decplaces <;> simp [le_max_left]

/-- C6, witness for the amended statement: a plain text column never
shrinks its accumulator. -/
theorem width_update_mono_witness :
    (3 : ℚ) ≤ width_update
      { name := "NAME", heading := "Name", numformat := none,
        commaflag := false, dateflag := false, timeflag := false,
        decplaces := none, colwidth := none, wrapped := false,
        blankzero := false } 3 (Value.str "foo") :=
  width_update_mono _ 3 (Value.str "foo") rfl rfl rfl

/-! ## C10: monotonicity of the pixel conversion -/

/-- C10, counterexample: the conversion is not monotone across the
34-pixel fudge threshold: `colwidth_from_pixels 34 = 29/7` but
`colwidth_from_pixels 34.5 = 28.5/7`, although `0 ≤ 34 ≤ 34.5`. -/
theorem colwidth_from_pixels_not_monotone_cex :
    (0 : ℚ) ≤ 34 ∧ (34 : ℚ) ≤ 69 / 2 ∧
    colwidth_from_pixels (69 / 2) < colwidth_from_pixels 34 := by
  refine ⟨by norm_num, by norm_num, by decide⟩

/-- C10, amended: the conversion is monotone on each of the three fudge
regimes (both pixel counts at most 34, both in the interval from just
above 34 up to 63, or both above 63); only across the two one-pixel
subtraction thresholds can it decrease, by at most 1/7 unit. -/
theorem colwidth_from_pixels_mono_same_regime (p q : ℚ) (h0 : 0 ≤ p)
    (hpq : p ≤ q)
    (hreg : q ≤ 34 ∨ (34 < p ∧ q ≤ 63) ∨ 63 < p) :
    colwidth_from_pixels p ≤ colwidth_from_pixels q := by
  rcases hreg with h | ⟨ha, hb⟩ | h <;>
    · simp only [colwidth_from_pixels]
      split_ifs <;> linarith

/-- C10, witness for the amended statement at pixel counts 10 and 20,
both in the first regime. -/
theorem colwidth_from_pixels_mono_witness :
    colwidth_from_pixels 10 ≤ colwidth_from_pixels 20 :=
  colwidth_from_pixels_mono_same_regime 10 20 (by norm_num) (by norm_num)
    (Or.inl (by norm_num))

end Theorems

end Cpytoxlsx
